import Mathlib

/-!
Verification of the span lifecycle manager specified for the
launchdarkly-client-js-o11y repository, together with the two
concrete callers found in the source (`TracesDemo.jsx` and the
bootstrap IIFE in `main.jsx`).

The span lifecycle manager itself (operations `startSpan`,
`startManualSpan`, `span.setAttributes`, `span.setStatus`,
`span.end`/`close`, and the exporter `emit`) lives in the vendor SDK
`@launchdarkly/observability`, which is not among the sources of this
repository; the specification describes it in §3–§7.  Those operations are
therefore modelled from the spec.  The two demo handlers and the
bootstrap entry point are translated directly from the source files.
-/

namespace O11y

/-- Scalar attribute values: the closed scalar set of the spec:
string / number / boolean / timestamp. -/
inductive Value where
  | str (s : String)
  | num (n : Int)
  | bool (b : Bool)
  | time (t : Nat)
deriving DecidableEq, Repr

/-- Attribute maps: association lists with last-write-wins overwrite. -/
abbrev Attrs := List (String × Value)

/-- Modelled from the spec: overwrite one key (last write wins). -/
def setAttr (a : Attrs) (k : String) (v : Value) : Attrs :=
  (a.filter (fun p => p.1 ≠ k)) ++ [(k, v)]

/-- Modelled from the spec: merge a map into an attribute set,
key by key, last write wins. -/
def mergeAttrs (a m : Attrs) : Attrs :=
  m.foldl (fun acc p => setAttr acc p.1 p.2) a

/-- Span status codes per the spec data model. -/
inductive StatusCode where
  | UNSET
  | OK
  | ERROR
deriving DecidableEq, Repr

/-- A status: a code with an optional message. -/
structure SpanStatus where
  code : StatusCode
  message : Option String
deriving DecidableEq, Repr

/-- Lifecycle mode, fixed at creation. -/
inductive LifecycleMode where
  | AUTOMATIC
  | MANUAL
deriving DecidableEq, Repr

/-- Modelled from the spec: the Span record of §3. -/
structure Span where
  name : String
  attributes : Attrs
  status : SpanStatus
  startTime : Nat
  endTime : Option Nat
  mode : LifecycleMode
  closed : Bool
deriving DecidableEq, Repr

/-- Errors raised by span operations. -/
inductive SpanError where
  | invalidState
deriving DecidableEq, Repr

/-- Modelled from the spec: span creation captures `startTime`,
starts `OPEN` with empty attributes and `UNSET` status. -/
def mkSpan (name : String) (t0 : Nat) (mode : LifecycleMode) : Span :=
  { name := name
    attributes := []
    status := { code := .UNSET, message := none }
    startTime := t0
    endTime := none
    mode := mode
    closed := false }

/-- Modelled from the spec: `span.setAttributes(map)` merges into the
attribute set; fails with `InvalidStateError` if the span is closed. -/
def Span.setAttributes (s : Span) (m : Attrs) : Except SpanError Span :=
  if s.closed then .error .invalidState
  else .ok { s with attributes := mergeAttrs s.attributes m }

/-- Modelled from the spec: `span.setStatus(code, message?)` overwrites
the current status; fails with `InvalidStateError` if closed. -/
def Span.setStatus (s : Span) (c : StatusCode) (msg : Option String) :
    Except SpanError Span :=
  if s.closed then .error .invalidState
  else .ok { s with status := { code := c, message := msg } }

/-- Modelled from the spec: `span.close()` sets `endTime` and marks the
span `CLOSED`; a second call fails with `InvalidStateError`. -/
def Span.close (s : Span) (t : Nat) : Except SpanError Span :=
  if s.closed then .error .invalidState
  else .ok { s with closed := true, endTime := some t }

/-- The immutable view handed to the exporter at close. -/
structure Snapshot where
  name : String
  attributes : Attrs
  status : SpanStatus
  startTime : Nat
  endTime : Option Nat
deriving DecidableEq, Repr

/-- The immutable snapshot of a span. -/
def Span.snapshot (s : Span) : Snapshot :=
  { name := s.name
    attributes := s.attributes
    status := s.status
    startTime := s.startTime
    endTime := s.endTime }

/-- Manager state for one span: the span plus the list of snapshots
emitted to the exporter collaborator so far. -/
structure MgrState where
  span : Span
  emitted : List Snapshot
deriving DecidableEq, Repr

/-- Modelled from the spec: closing emits the closed span to the
exporter, exactly at the moment of closure. -/
def closeAndEmit (st : MgrState) (t : Nat) : Except SpanError MgrState :=
  match st.span.close t with
  | .error e => .error e
  | .ok s => .ok { span := s, emitted := st.emitted ++ [s.snapshot] }

/-- Failures visible to the caller of the manager: a failure raised by
the unit of work (carrying its description), or an `InvalidStateError`
surfaced by a span operation. -/
inductive Failure where
  | workFailure (msg : String)
  | invalidState
deriving DecidableEq, Repr

/-- The description attached as the `ERROR` message when the manager
records a failure of the unit of work. -/
def Failure.describe : Failure → String
  | .workFailure msg => msg
  | .invalidState => "InvalidStateError"

/-- One step of a caller-supplied unit of work: mutate attributes,
overwrite the status, explicitly close the span (`span.end()`), or
raise a failure at this point. -/
inductive WorkStep where
  | setAttrs (m : Attrs)
  | setStat (c : StatusCode) (msg : Option String)
  | close
  | raise (e : String)
deriving DecidableEq, Repr

/-- Run one work step against the manager state.  A failing span
operation surfaces `InvalidStateError`; a `raise` step surfaces the
raised failure.  The state reached so far is kept in either case. -/
def runStep (t : Nat) (st : MgrState) : WorkStep → MgrState × Option Failure
  | .setAttrs m =>
    match st.span.setAttributes m with
    | .ok s => ({ st with span := s }, none)
    | .error _ => (st, some .invalidState)
  | .setStat c msg =>
    match st.span.setStatus c msg with
    | .ok s => ({ st with span := s }, none)
    | .error _ => (st, some .invalidState)
  | .close =>
    match closeAndEmit st t with
    | .ok st1 => (st1, none)
    | .error _ => (st, some .invalidState)
  | .raise e => (st, some (.workFailure e))

/-- Run a unit of work, step by step, stopping at the first failure. -/
def runSteps (t : Nat) (st : MgrState) : List WorkStep → MgrState × Option Failure
  | [] => (st, none)
  | step :: rest =>
    match runStep t st step with
    | (st1, none) => runSteps t st1 rest
    | (st1, some f) => (st1, some f)

/-- Modelled from the spec: `startSpan(name, work)` — automatic
lifecycle.  Creates an `AUTOMATIC`-mode span, invokes the work, and
closes the span unconditionally when the work finishes: on normal
completion the value of the work is returned; on failure the manager
attaches `status = ERROR` with the failure description before closing,
then re-raises the same failure.  Closing emits to the exporter. -/
def startSpan (name : String) (t0 t1 : Nat) (steps : List WorkStep)
    (retVal : α) : Except Failure α × MgrState :=
  let st0 : MgrState := { span := mkSpan name t0 .AUTOMATIC, emitted := [] }
  match runSteps t1 st0 steps with
  | (st1, none) =>
    match closeAndEmit st1 t1 with
    | .ok st2 => (.ok retVal, st2)
    | .error _ => (.error .invalidState, st1)
  | (st1, some f) =>
    let st2 : MgrState :=
      match st1.span.setStatus .ERROR (some f.describe) with
      | .ok s => { st1 with span := s }
      | .error _ => st1
    match closeAndEmit st2 t1 with
    | .ok st3 => (.error f, st3)
    | .error _ => (.error f, st2)

/-- Modelled from the spec: `startManualSpan(name, work)` — manual
lifecycle.  Creates a `MANUAL`-mode span and invokes the work; the
manager never closes the span itself and never sets a status: status
assignment and closing are entirely caller-driven, and its
value or failure is propagated unchanged. -/
def startManualSpan (name : String) (t0 t1 : Nat) (steps : List WorkStep)
    (retVal : α) : Except Failure α × MgrState :=
  let st0 : MgrState := { span := mkSpan name t0 .MANUAL, emitted := [] }
  match runSteps t1 st0 steps with
  | (st1, none) => (.ok retVal, st1)
  | (st1, some f) => (.error f, st1)

/-!
Embedding of `handleManualSpan` from `src/components/TracesDemo.jsx`.
The callback passed to `LDObserve.startManualSpan` runs a three-step
workflow inside `try { ... } catch (error) { ... } finally { span.end() }`.
The three `await`ed operations are modelled as steps that may reject
(the error paths the `catch` clause is written for); timestamps
(`new Date().toISOString()`) are supplied by the environment.
-/

/-- Environment for one run of the manual-span demo callback: which of
the three awaited operations (1, 2 or 3) rejects, with what message,
and the timestamp string observed at each step. -/
structure DemoEnv where
  failAt : Option Nat
  failMsg : String
  ts : Nat → String

/-- The k-th awaited operation: rejects exactly when the environment
says operation k fails. -/
def demoAwait (env : DemoEnv) (k : Nat) : Except Failure Unit :=
  match env.failAt with
  | some j => if j = k then .error (.workFailure env.failMsg) else .ok ()
  | none => .ok ()

/-- An error recorded via `LDObserve.recordError(error, message, attrs)`. -/
structure RecordedError where
  message : String
  context : String
  component : String
deriving DecidableEq, Repr

/-- The `try` block of the manual-span callback, translated statement
by statement: initial `setAttributes`, then for each step an await, the
`completedSteps` update and a `setAttributes`, then `setStatus OK`.
Returns the manager state, the value of `completedSteps`, and the
failure that escaped the block, if any. -/
def demoTry (env : DemoEnv) (st : MgrState) : MgrState × Nat × Option Failure :=
  match st.span.setAttributes
      [("operation.type", .str "multi_step_workflow"),
       ("workflow.total_steps", .num 3)] with
  | .error _ => (st, 0, some .invalidState)
  | .ok sA =>
  let st := { st with span := sA }
  match demoAwait env 1 with
  | .error f => (st, 0, some f)
  | .ok _ =>
  match st.span.setAttributes
      [("step.1.completed", .bool true),
       ("step.1.timestamp", .str (env.ts 1))] with
  | .error _ => (st, 1, some .invalidState)
  | .ok s1 =>
  let st := { st with span := s1 }
  match demoAwait env 2 with
  | .error f => (st, 1, some f)
  | .ok _ =>
  match st.span.setAttributes
      [("step.2.completed", .bool true),
       ("step.2.timestamp", .str (env.ts 2))] with
  | .error _ => (st, 2, some .invalidState)
  | .ok s2 =>
  let st := { st with span := s2 }
  match demoAwait env 3 with
  | .error f => (st, 2, some f)
  | .ok _ =>
  match st.span.setAttributes
      [("step.3.completed", .bool true),
       ("step.3.timestamp", .str (env.ts 3)),
       ("workflow.success", .bool true)] with
  | .error _ => (st, 3, some .invalidState)
  | .ok s3 =>
  let st := { st with span := s3 }
  match st.span.setStatus .OK none with
  | .error _ => (st, 3, some .invalidState)
  | .ok s4 => ({ st with span := s4 }, 3, none)

/-- The `catch (error)` clause: `span.setStatus(ERROR, error.message)`
then `LDObserve.recordError` with the message `Multi-step workflow
failed` and the component `TracesDemo.jsx`.  If `setStatus` itself throws, the rest of
the clause is skipped and that failure escapes the clause. -/
def demoCatch (f : Failure) (st : MgrState) :
    MgrState × List RecordedError × Option Failure :=
  match st.span.setStatus .ERROR (some f.describe) with
  | .error _ => (st, [], some .invalidState)
  | .ok s =>
    ({ st with span := s },
     [{ message := f.describe
        context := "Multi-step workflow failed"
        component := "TracesDemo.jsx" }],
     none)

/-- How the callback finished: normal completion, or a failure
propagating out to `startManualSpan`. -/
inductive DemoOutcome where
  | normal
  | threw (f : Failure)
deriving DecidableEq, Repr

/-- Result of one run of the manual-span callback. -/
structure DemoResult where
  st : MgrState
  errorLog : List RecordedError
  completedSteps : Nat
  outcome : DemoOutcome

/-- The whole callback of `handleManualSpan`: `try` block, `catch`
clause on failure, and the `finally` block that calls `span.end()` on
every exit path.  A failure thrown by `span.end()` inside `finally`
would replace any pending failure. -/
def handleManualSpanWork (env : DemoEnv) (t1 : Nat) (st0 : MgrState) : DemoResult :=
  let r := demoTry env st0
  let c : MgrState × List RecordedError × Option Failure :=
    match r.2.2 with
    | none => (r.1, [], none)
    | some f => demoCatch f r.1
  match closeAndEmit c.1 t1 with
  | .ok st3 =>
    { st := st3
      errorLog := c.2.1
      completedSteps := r.2.1
      outcome := match c.2.2 with
                 | none => .normal
                 | some f => .threw f }
  | .error _ =>
    { st := c.1
      errorLog := c.2.1
      completedSteps := r.2.1
      outcome := .threw .invalidState }

/-- `handleManualSpan`: it calls `LDObserve.startManualSpan` with the
name `workflow.multi_step` and the callback above — a fresh `MANUAL`-mode span handed to the callback above. -/
def handleManualSpan (env : DemoEnv) (t0 t1 : Nat) : DemoResult :=
  handleManualSpanWork env t1 { span := mkSpan "workflow.multi_step" t0 .MANUAL, emitted := [] }

/-- Whether the environment makes one of the three workflow steps
raise a failure inside the callback. -/
def demoFails (env : DemoEnv) : Bool :=
  match env.failAt with
  | some k => decide (1 ≤ k ∧ k ≤ 3)
  | none => false

/-!
Embedding of the bootstrap IIFE of `main.jsx`: read
`VITE_LD_CLIENT_SIDE_ID`, throw before calling `asyncWithLDProvider`
when it is falsy, render `App` inside the provider on success, render
an error screen with the message of the failure in the `catch` path.
-/

/-- What the entry point renders into `#root`. -/
inductive Rendered where
  | app
  | errorScreen (msg : String)
deriving DecidableEq, Repr

/-- Outcome of the bootstrap: whether `asyncWithLDProvider` was ever
called, and what got rendered. -/
structure BootResult where
  ldProviderCalled : Bool
  rendered : Rendered
deriving DecidableEq, Repr

/-- The message of the error thrown when the client-side ID is missing. -/
def missingIdMessage : String :=
  "LaunchDarkly client-side ID not found in environment variables. Please set VITE_LD_CLIENT_SIDE_ID in your .env file."

/-- The bootstrap IIFE of `main.jsx`: `clientSideID` is the value of
the environment variable (`none` when absent; JavaScript treats both
`undefined` and the empty string as falsy), `providerInit` is how the
`await asyncWithLDProvider(...)` call would resolve. -/
def bootstrap (clientSideID : Option String) (providerInit : Except String Unit) :
    BootResult :=
  match clientSideID with
  | none => { ldProviderCalled := false, rendered := .errorScreen missingIdMessage }
  | some id =>
    if id = "" then
      { ldProviderCalled := false, rendered := .errorScreen missingIdMessage }
    else
      match providerInit with
      | .ok _ => { ldProviderCalled := true, rendered := .app }
      | .error e => { ldProviderCalled := true, rendered := .errorScreen e }

/-!  Lemmas about the span lifecycle manager. -/

/-- The state invariant tying emission to closure: `endTime` is
present exactly when the span is closed, and the exporter has received
exactly the snapshot of the closed span, nothing while it is open. -/
def Inv (st : MgrState) : Prop :=
  st.span.endTime.isSome = st.span.closed ∧
  st.emitted = (if st.span.closed = true then [st.span.snapshot] else [])

theorem inv_init (name : String) (t0 : Nat) (mode : LifecycleMode) :
    Inv { span := mkSpan name t0 mode, emitted := [] } := by
  simp [Inv, mkSpan]

theorem setAttributes_open (s : Span) (m : Attrs) (h : s.closed = false) :
    s.setAttributes m = .ok { s with attributes := mergeAttrs s.attributes m } := by
  simp [Span.setAttributes, h]

theorem setStatus_open (s : Span) (c : StatusCode) (msg : Option String)
    (h : s.closed = false) :
    s.setStatus c msg = .ok { s with status := { code := c, message := msg } } := by
  simp [Span.setStatus, h]

theorem close_open (s : Span) (t : Nat) (h : s.closed = false) :
    s.close t = .ok { s with closed := true, endTime := some t } := by
  simp [Span.close, h]

theorem setAttributes_closed (s : Span) (m : Attrs) (h : s.closed = true) :
    s.setAttributes m = .error .invalidState := by
  simp [Span.setAttributes, h]

theorem setStatus_closed (s : Span) (c : StatusCode) (msg : Option String)
    (h : s.closed = true) :
    s.setStatus c msg = .error .invalidState := by
  simp [Span.setStatus, h]

theorem close_closed (s : Span) (t : Nat) (h : s.closed = true) :
    s.close t = .error .invalidState := by
  simp [Span.close, h]

theorem closeAndEmit_open (st : MgrState) (t : Nat) (h : st.span.closed = false) :
    closeAndEmit st t =
      .ok { span := { st.span with closed := true, endTime := some t }
            emitted := st.emitted ++
              [Span.snapshot { st.span with closed := true, endTime := some t }] } := by
  simp [closeAndEmit, close_open st.span t h]

theorem closeAndEmit_closed (st : MgrState) (t : Nat) (h : st.span.closed = true) :
    closeAndEmit st t = .error .invalidState := by
  simp [closeAndEmit, close_closed st.span t h]

/-- Each work step preserves the invariant. -/
theorem runStep_inv (t : Nat) (st : MgrState) (w : WorkStep) (h : Inv st) :
    Inv (runStep t st w).1 := by
  obtain ⟨h1, h2⟩ := h
  cases w with
  | setAttrs m =>
    by_cases hc : st.span.closed = true
    · simp [runStep, setAttributes_closed st.span m hc, Inv, h1, h2]
    · simp only [Bool.not_eq_true] at hc
      simp [runStep, setAttributes_open st.span m hc, Inv, Span.snapshot, h1, h2, hc]
  | setStat c msg =>
    by_cases hc : st.span.closed = true
    · simp [runStep, setStatus_closed st.span c msg hc, Inv, h1, h2]
    · simp only [Bool.not_eq_true] at hc
      simp [runStep, setStatus_open st.span c msg hc, Inv, Span.snapshot, h1, h2, hc]
  | close =>
    by_cases hc : st.span.closed = true
    · simp [runStep, closeAndEmit_closed st t hc, Inv, h1, h2]
    · simp only [Bool.not_eq_true] at hc
      simp [runStep, closeAndEmit_open st t hc, Inv, Span.snapshot, h2, hc]
  | raise e =>
    simp [runStep, Inv, h1, h2]

/-- Running a unit of work preserves the invariant. -/
theorem runSteps_inv (t : Nat) (steps : List WorkStep) (st : MgrState) (h : Inv st) :
    Inv (runSteps t st steps).1 := by
  induction steps generalizing st with
  | nil => simpa [runSteps] using h
  | cons w rest ih =>
    have hw := runStep_inv t st w h
    cases hstep : runStep t st w with
    | mk st1 f =>
      rw [hstep] at hw
      cases f with
      | none => simpa [runSteps, hstep] using ih st1 hw
      | some g => simpa [runSteps, hstep] using hw

/-- Work containing no explicit `close` step leaves the span open and
emits nothing, whether it completes or raises. -/
theorem runSteps_open (t : Nat) (steps : List WorkStep) (st : MgrState)
    (hnc : ∀ w ∈ steps, w ≠ WorkStep.close) (h : st.span.closed = false) :
    (runSteps t st steps).1.span.closed = false ∧
    (runSteps t st steps).1.emitted = st.emitted := by
  induction steps generalizing st with
  | nil => simp [runSteps, h]
  | cons w rest ih =>
    have hw : w ≠ WorkStep.close := hnc w (List.mem_cons_self w rest)
    have hrest : ∀ x ∈ rest, x ≠ WorkStep.close :=
      fun x hx => hnc x (List.mem_cons_of_mem w hx)
    cases w with
    | setAttrs m =>
      rw [runSteps, runStep, setAttributes_open st.span m h]
      exact ih _ hrest h
    | setStat c msg =>
      rw [runSteps, runStep, setStatus_open st.span c msg h]
      exact ih _ hrest h
    | close => exact absurd rfl hw
    | raise e =>
      simp [runSteps, runStep, h]

/-- A successful `setStatus` preserves the invariant. -/
theorem setStatus_ok_inv (st : MgrState) (c : StatusCode) (msg : Option String)
    (s : Span) (h : Inv st) (hok : st.span.setStatus c msg = .ok s) :
    Inv { st with span := s } := by
  obtain ⟨h1, h2⟩ := h
  by_cases hc : st.span.closed = true
  · rw [setStatus_closed st.span c msg hc] at hok
    exact absurd hok (by simp)
  · simp only [Bool.not_eq_true] at hc
    rw [setStatus_open st.span c msg hc] at hok
    obtain rfl : ({ st.span with status := { code := c, message := msg } } : Span) = s := by
      simpa using hok
    simp only [hc] at h2
    simp [Inv, hc, h1, h2]

/-- A successful `closeAndEmit` re-establishes the invariant. -/
theorem closeAndEmit_inv (st : MgrState) (t : Nat) (st' : MgrState)
    (h : Inv st) (hok : closeAndEmit st t = .ok st') : Inv st' := by
  obtain ⟨h1, h2⟩ := h
  by_cases hc : st.span.closed = true
  · rw [closeAndEmit_closed st t hc] at hok
    exact absurd hok (by simp)
  · simp only [Bool.not_eq_true] at hc
    rw [closeAndEmit_open st t hc] at hok
    obtain rfl : ({ span := { st.span with closed := true, endTime := some t }
                    emitted := st.emitted ++
                      [Span.snapshot { st.span with closed := true, endTime := some t }] }
                  : MgrState) = st' := by
      simpa using hok
    simp only [hc] at h2
    simp [Inv, Span.snapshot, h2]

/-- The invariant holds for the state `startSpan` leaves behind. -/
theorem startSpan_inv {α : Type} (name : String) (t0 t1 : Nat)
    (steps : List WorkStep) (retVal : α) :
    Inv (startSpan name t0 t1 steps retVal).2 := by
  have h1 := runSteps_inv t1 steps
      { span := mkSpan name t0 .AUTOMATIC, emitted := [] } (inv_init name t0 .AUTOMATIC)
  simp only [startSpan]
  cases hrs : runSteps t1 { span := mkSpan name t0 .AUTOMATIC, emitted := [] } steps with
  | mk st1 f =>
    rw [hrs] at h1
    simp only at h1
    cases f with
    | none =>
      dsimp only
      cases hce : closeAndEmit st1 t1 with
      | ok st2 => exact closeAndEmit_inv st1 t1 st2 h1 hce
      | error e => exact h1
    | some g =>
      dsimp only
      cases hss : st1.span.setStatus .ERROR (some g.describe) with
      | error e =>
        dsimp only
        cases hce : closeAndEmit st1 t1 with
        | ok st3 => exact closeAndEmit_inv st1 t1 st3 h1 hce
        | error e2 => exact h1
      | ok s =>
        dsimp only
        have hs : Inv { st1 with span := s } := setStatus_ok_inv st1 _ _ s h1 hss
        cases hce : closeAndEmit { span := s, emitted := st1.emitted } t1 with
        | ok st3 => exact closeAndEmit_inv _ t1 st3 hs hce
        | error e2 => exact hs

/-- The invariant holds for the state `startManualSpan` leaves behind. -/
theorem startManualSpan_inv {α : Type} (name : String) (t0 t1 : Nat)
    (steps : List WorkStep) (retVal : α) :
    Inv (startManualSpan name t0 t1 steps retVal).2 := by
  have h1 := runSteps_inv t1 steps
      { span := mkSpan name t0 .MANUAL, emitted := [] } (inv_init name t0 .MANUAL)
  simp only [startManualSpan]
  cases hrs : runSteps t1 { span := mkSpan name t0 .MANUAL, emitted := [] } steps with
  | mk st1 f =>
    rw [hrs] at h1
    simp only at h1
    cases f with
    | none => simpa using h1
    | some g => simpa using h1

/-- When the work completes normally and never closed the span itself,
`startSpan` returns the value of the work and leaves a closed span whose
snapshot was emitted exactly once. -/
theorem startSpan_after_normal {α : Type} (name : String) (t0 t1 : Nat)
    (steps : List WorkStep) (retVal : α)
    (hnc : ∀ w ∈ steps, w ≠ WorkStep.close)
    (hg : (runSteps t1 { span := mkSpan name t0 .AUTOMATIC, emitted := [] } steps).2 = none) :
    (startSpan name t0 t1 steps retVal).1 = .ok retVal ∧
    (startSpan name t0 t1 steps retVal).2.span.closed = true ∧
    (startSpan name t0 t1 steps retVal).2.emitted =
      [(startSpan name t0 t1 steps retVal).2.span.snapshot] := by
  have hopen := runSteps_open t1 steps
      { span := mkSpan name t0 .AUTOMATIC, emitted := [] } hnc (by simp [mkSpan])
  simp only [startSpan]
  cases hrs : runSteps t1 { span := mkSpan name t0 .AUTOMATIC, emitted := [] } steps with
  | mk st1 f =>
    rw [hrs] at hopen hg
    simp only at hopen hg
    obtain ⟨ho1, ho2⟩ := hopen
    subst hg
    dsimp only
    cases hce : closeAndEmit st1 t1 with
    | error e =>
      rw [closeAndEmit_open st1 t1 ho1] at hce
      exact absurd hce (by simp)
    | ok st2 =>
      rw [closeAndEmit_open st1 t1 ho1] at hce
      have h2 : ({ span := { st1.span with closed := true, endTime := some t1 }
                   emitted := st1.emitted ++
                     [Span.snapshot { st1.span with closed := true, endTime := some t1 }] }
                 : MgrState) = st2 := by simpa using hce
      dsimp only
      rw [← h2]
      simp [ho2]

/-- When the work raises a failure `g` and never closed the span
itself, `startSpan` records `ERROR` with the description of the failure,
closes and emits once, and re-raises `g`. -/
theorem startSpan_after_raise {α : Type} (name : String) (t0 t1 : Nat)
    (steps : List WorkStep) (retVal : α) (g : Failure)
    (hnc : ∀ w ∈ steps, w ≠ WorkStep.close)
    (hg : (runSteps t1 { span := mkSpan name t0 .AUTOMATIC, emitted := [] } steps).2 = some g) :
    (startSpan name t0 t1 steps retVal).1 = .error g ∧
    (startSpan name t0 t1 steps retVal).2.span.closed = true ∧
    (startSpan name t0 t1 steps retVal).2.span.status =
      { code := .ERROR, message := some g.describe } ∧
    (startSpan name t0 t1 steps retVal).2.emitted =
      [(startSpan name t0 t1 steps retVal).2.span.snapshot] := by
  have hopen := runSteps_open t1 steps
      { span := mkSpan name t0 .AUTOMATIC, emitted := [] } hnc (by simp [mkSpan])
  simp only [startSpan]
  cases hrs : runSteps t1 { span := mkSpan name t0 .AUTOMATIC, emitted := [] } steps with
  | mk st1 f =>
    rw [hrs] at hopen hg
    simp only at hopen hg
    obtain ⟨ho1, ho2⟩ := hopen
    subst hg
    dsimp only
    cases hss : st1.span.setStatus .ERROR (some g.describe) with
    | error e =>
      rw [setStatus_open st1.span _ _ ho1] at hss
      exact absurd hss (by simp)
    | ok s =>
      have hseq : s = { st1.span with
          status := { code := .ERROR, message := some g.describe } } := by
        rw [setStatus_open st1.span _ _ ho1] at hss
        simpa using hss.symm
      have hsc : s.closed = false := by rw [hseq]; exact ho1
      dsimp only
      cases hce : closeAndEmit { span := s, emitted := st1.emitted } t1 with
      | error e2 =>
        rw [closeAndEmit_open { span := s, emitted := st1.emitted } t1 hsc] at hce
        exact absurd hce (by simp)
      | ok st3 =>
        rw [closeAndEmit_open { span := s, emitted := st1.emitted } t1 hsc] at hce
        have h3 : ({ span := { s with closed := true, endTime := some t1 }
                     emitted := st1.emitted ++
                       [Span.snapshot { s with closed := true, endTime := some t1 }] }
                   : MgrState) = st3 := by simpa using hce
        dsimp only
        rw [← h3]
        simp [ho2, hseq]

/-- Claim C1: For every unit of work that does not itself close the span,
the span created by `startSpan` (automatic mode) is `CLOSED` after
`startSpan` returns or raises, and the close happened exactly once —
whether the work finished normally, raised, or performed any number of
attribute mutations. -/
theorem startSpan_closes_exactly_once {α : Type} (name : String) (t0 t1 : Nat)
    (steps : List WorkStep) (retVal : α) (h : WorkStep.close ∉ steps) :
    (startSpan name t0 t1 steps retVal).2.span.closed = true ∧
    (startSpan name t0 t1 steps retVal).2.emitted.length = 1 := by
  have hnc : ∀ w ∈ steps, w ≠ WorkStep.close := fun w hw he => h (he ▸ hw)
  cases hg : (runSteps t1 { span := mkSpan name t0 .AUTOMATIC, emitted := [] } steps).2 with
  | none =>
    obtain ⟨-, h2, h3⟩ := startSpan_after_normal name t0 t1 steps retVal hnc hg
    exact ⟨h2, by rw [h3]; rfl⟩
  | some g =>
    obtain ⟨-, h2, -, h4⟩ := startSpan_after_raise name t0 t1 steps retVal g hnc hg
    exact ⟨h2, by rw [h4]; rfl⟩

/-- Witness for C1 at a concrete work: one attribute mutation, normal
completion. -/
theorem startSpan_closes_exactly_once_witness :
    (startSpan "x" 0 5 [WorkStep.setAttrs [("a", Value.num 1)]] (0 : Nat)).2.span.closed = true ∧
    (startSpan "x" 0 5 [WorkStep.setAttrs [("a", Value.num 1)]] (0 : Nat)).2.emitted.length = 1 :=
  startSpan_closes_exactly_once "x" 0 5 [WorkStep.setAttrs [("a", Value.num 1)]] 0 (by decide)

/-- Claim C2: When the work raises `Error(m)`, `startSpan` sets
`status = ERROR` with message `m` before closing (the emitted snapshot
carries it), closes and emits the span, and re-raises the same failure
to the caller instead of suppressing it. -/
theorem startSpan_error_recorded_and_reraised {α : Type} (name : String) (t0 t1 : Nat)
    (steps : List WorkStep) (retVal : α) (m : String)
    (hnc : WorkStep.close ∉ steps)
    (hraise : (runSteps t1 { span := mkSpan name t0 .AUTOMATIC, emitted := [] } steps).2
      = some (Failure.workFailure m)) :
    (startSpan name t0 t1 steps retVal).1 = .error (.workFailure m) ∧
    (startSpan name t0 t1 steps retVal).2.span.status =
      { code := .ERROR, message := some m } ∧
    (startSpan name t0 t1 steps retVal).2.span.closed = true ∧
    (startSpan name t0 t1 steps retVal).2.emitted =
      [(startSpan name t0 t1 steps retVal).2.span.snapshot] := by
  have hnc2 : ∀ w ∈ steps, w ≠ WorkStep.close := fun w hw he => hnc (he ▸ hw)
  obtain ⟨h1, h2, h3, h4⟩ :=
    startSpan_after_raise name t0 t1 steps retVal (.workFailure m) hnc2 hraise
  exact ⟨h1, by simpa [Failure.describe] using h3, h2, h4⟩

/-- Witness for C2: the spec scenario of `work` raising `Error("boom")`. -/
theorem startSpan_error_recorded_and_reraised_witness :
    (startSpan "x" 0 5 [WorkStep.raise "boom"] (0 : Nat)).1
      = .error (.workFailure "boom") ∧
    (startSpan "x" 0 5 [WorkStep.raise "boom"] (0 : Nat)).2.span.status =
      { code := .ERROR, message := some "boom" } ∧
    (startSpan "x" 0 5 [WorkStep.raise "boom"] (0 : Nat)).2.span.closed = true ∧
    (startSpan "x" 0 5 [WorkStep.raise "boom"] (0 : Nat)).2.emitted =
      [(startSpan "x" 0 5 [WorkStep.raise "boom"] (0 : Nat)).2.span.snapshot] :=
  startSpan_error_recorded_and_reraised "x" 0 5 [WorkStep.raise "boom"] 0 "boom"
    (by decide) (by decide)

/-- Claim C3: `startManualSpan` never closes the span itself under any
circumstance — including when the work raises — and emits nothing: a
span whose work never calls the close operation stays `OPEN`. -/
theorem startManualSpan_never_closes {α : Type} (name : String) (t0 t1 : Nat)
    (steps : List WorkStep) (retVal : α) (h : WorkStep.close ∉ steps) :
    (startManualSpan name t0 t1 steps retVal).2.span.closed = false ∧
    (startManualSpan name t0 t1 steps retVal).2.emitted = [] := by
  have hnc : ∀ w ∈ steps, w ≠ WorkStep.close := fun w hw he => h (he ▸ hw)
  have hopen := runSteps_open t1 steps
      { span := mkSpan name t0 .MANUAL, emitted := [] } hnc (by simp [mkSpan])
  simp only [startManualSpan]
  cases hrs : runSteps t1 { span := mkSpan name t0 .MANUAL, emitted := [] } steps with
  | mk st1 f =>
    rw [hrs] at hopen
    simp only at hopen
    cases f with
    | none => exact hopen
    | some g => exact hopen

/-- Witness for C3: the work raises and the manager still does not
close the manual span. -/
theorem startManualSpan_never_closes_witness :
    (startManualSpan "y" 0 5 [WorkStep.raise "boom"] (0 : Nat)).2.span.closed = false ∧
    (startManualSpan "y" 0 5 [WorkStep.raise "boom"] (0 : Nat)).2.emitted = [] :=
  startManualSpan_never_closes "y" 0 5 [WorkStep.raise "boom"] 0 (by decide)

/-- Claim C4: Mutating a closed span fails with `InvalidStateError` and
leaves the span (attributes and status) and the emitted list exactly
as they were: no partial merge, no status change. -/
theorem closed_span_mutation_rejected (s : Span) (m : Attrs) (c : StatusCode)
    (msg : Option String) (em : List Snapshot) (t : Nat) (h : s.closed = true) :
    s.setAttributes m = .error .invalidState ∧
    s.setStatus c msg = .error .invalidState ∧
    runStep t { span := s, emitted := em } (.setAttrs m)
      = ({ span := s, emitted := em }, some .invalidState) ∧
    runStep t { span := s, emitted := em } (.setStat c msg)
      = ({ span := s, emitted := em }, some .invalidState) := by
  refine ⟨setAttributes_closed s m h, setStatus_closed s c msg h, ?_, ?_⟩
  · simp [runStep, setAttributes_closed s m h]
  · simp [runStep, setStatus_closed s c msg h]

/-- Witness for C4 at a concrete closed span. -/
theorem closed_span_mutation_rejected_witness :
    (Span.setAttributes
        { name := "x", attributes := [], status := { code := .UNSET, message := none },
          startTime := 0, endTime := some 1, mode := .MANUAL, closed := true }
        [("a", Value.num 1)] = .error .invalidState) ∧
    (Span.setStatus
        { name := "x", attributes := [], status := { code := .UNSET, message := none },
          startTime := 0, endTime := some 1, mode := .MANUAL, closed := true }
        .OK none = .error .invalidState) ∧
    runStep 2 { span := { name := "x", attributes := [],
                          status := { code := .UNSET, message := none },
                          startTime := 0, endTime := some 1, mode := .MANUAL,
                          closed := true }, emitted := [] }
        (.setAttrs [("a", Value.num 1)])
      = ({ span := { name := "x", attributes := [],
                     status := { code := .UNSET, message := none },
                     startTime := 0, endTime := some 1, mode := .MANUAL,
                     closed := true }, emitted := [] }, some .invalidState) ∧
    runStep 2 { span := { name := "x", attributes := [],
                          status := { code := .UNSET, message := none },
                          startTime := 0, endTime := some 1, mode := .MANUAL,
                          closed := true }, emitted := [] }
        (.setStat .OK none)
      = ({ span := { name := "x", attributes := [],
                     status := { code := .UNSET, message := none },
                     startTime := 0, endTime := some 1, mode := .MANUAL,
                     closed := true }, emitted := [] }, some .invalidState) :=
  closed_span_mutation_rejected
    { name := "x", attributes := [], status := { code := .UNSET, message := none },
      startTime := 0, endTime := some 1, mode := .MANUAL, closed := true }
    [("a", Value.num 1)] .OK none [] 2 rfl

/-- Claim C5: `endTime` is set if and only if the span is `CLOSED`: after
any sequence of operations on a fresh span, and after either manager
entry point, `endTime.isSome` coincides with the closed flag. -/
theorem endTime_iff_closed (name : String) (t0 t1 t : Nat) (mode : LifecycleMode)
    (steps : List WorkStep) :
    ((runSteps t { span := mkSpan name t0 mode, emitted := [] } steps).1.span.endTime.isSome
      = (runSteps t { span := mkSpan name t0 mode, emitted := [] } steps).1.span.closed) ∧
    ((startSpan name t0 t1 steps ()).2.span.endTime.isSome
      = (startSpan name t0 t1 steps ()).2.span.closed) ∧
    ((startManualSpan name t0 t1 steps ()).2.span.endTime.isSome
      = (startManualSpan name t0 t1 steps ()).2.span.closed) :=
  ⟨(runSteps_inv t steps _ (inv_init name t0 mode)).1,
   (startSpan_inv name t0 t1 steps ()).1,
   (startManualSpan_inv name t0 t1 steps ()).1⟩

/-- Claim C7: The exporter receives nothing while the span is open, and
exactly the one immutable snapshot of
`(name, attributes, status, startTime, endTime)` once it is closed —
never a second emission for the same span. -/
theorem emit_once_only_after_close (name : String) (t0 t1 t : Nat)
    (mode : LifecycleMode) (steps : List WorkStep) :
    ((runSteps t { span := mkSpan name t0 mode, emitted := [] } steps).1.emitted
      = (if (runSteps t { span := mkSpan name t0 mode, emitted := [] } steps).1.span.closed = true
         then [(runSteps t { span := mkSpan name t0 mode, emitted := [] } steps).1.span.snapshot]
         else [])) ∧
    ((startSpan name t0 t1 steps ()).2.emitted
      = (if (startSpan name t0 t1 steps ()).2.span.closed = true
         then [(startSpan name t0 t1 steps ()).2.span.snapshot] else [])) ∧
    ((startManualSpan name t0 t1 steps ()).2.emitted
      = (if (startManualSpan name t0 t1 steps ()).2.span.closed = true
         then [(startManualSpan name t0 t1 steps ()).2.span.snapshot] else [])) :=
  ⟨(runSteps_inv t steps _ (inv_init name t0 mode)).2,
   (startSpan_inv name t0 t1 steps ()).2,
   (startManualSpan_inv name t0 t1 steps ()).2⟩

/-- Claim C6: Status writes before close obey last-write-wins: for every
open span and every nonempty sequence of `setStatus` calls (written as
a prefix `calls` followed by the final call `(c, msg)`), the resulting span
status is exactly the code and message of that final call —
earlier writes leave no trace. -/
theorem status_last_write_wins (s : Span) (em : List Snapshot) (t : Nat)
    (calls : List (StatusCode × Option String)) (c : StatusCode) (msg : Option String)
    (hs : s.closed = false) :
    (runSteps t { span := s, emitted := em }
        ((calls ++ [(c, msg)]).map fun p => WorkStep.setStat p.1 p.2)).1.span.status
      = { code := c, message := msg } := by
  induction calls generalizing s with
  | nil =>
    simp [runSteps, runStep, setStatus_open s c msg hs]
  | cons p rest ih =>
    simp only [List.cons_append, List.map_cons, runSteps, runStep,
               setStatus_open s p.1 p.2 hs]
    exact ih _ hs

/-- Witness for C6: `OK` then `ERROR "boom"` before close leaves
exactly the last write. -/
theorem status_last_write_wins_witness :
    (runSteps 1 { span := mkSpan "x" 0 .AUTOMATIC, emitted := [] }
        (([((StatusCode.OK : StatusCode), (none : Option String))]
            ++ [(StatusCode.ERROR, some "boom")]).map
          fun p => WorkStep.setStat p.1 p.2)).1.span.status
      = { code := StatusCode.ERROR, message := some "boom" } :=
  status_last_write_wins (mkSpan "x" 0 .AUTOMATIC) [] 1
    [(StatusCode.OK, none)] StatusCode.ERROR (some "boom") rfl

/-- Claim C10: The bootstrap of `main.jsx`: a missing client-side ID throws
before `asyncWithLDProvider` is ever called and renders the error
screen; `App` renders only with a non-empty client-side ID and a
successful initialization; any initialization failure is rendered on
screen, never swallowed. -/
theorem bootstrap_guarded :
    (∀ r, (bootstrap none r).ldProviderCalled = false ∧
          (bootstrap none r).rendered = .errorScreen missingIdMessage) ∧
    (∀ env r, (bootstrap env r).rendered = .app →
       ∃ id, env = some id ∧ id ≠ "" ∧ r = .ok ()) ∧
    (∀ env m, ∃ emsg, (bootstrap env (.error m)).rendered = .errorScreen emsg) := by
  refine ⟨fun r => by simp [bootstrap], ?_, ?_⟩
  · intro env r h
    cases env with
    | none => simp [bootstrap] at h
    | some id =>
      by_cases hid : id = ""
      · simp [bootstrap, hid] at h
      · cases r with
        | ok u => exact ⟨id, rfl, hid, rfl⟩
        | error e => simp [bootstrap, hid] at h
  · intro env m
    cases env with
    | none => exact ⟨missingIdMessage, by simp [bootstrap]⟩
    | some id =>
      by_cases hid : id = ""
      · exact ⟨missingIdMessage, by simp [bootstrap, hid]⟩
      · exact ⟨m, by simp [bootstrap, hid]⟩

/-- Witness for C10: a present, non-empty ID with successful
initialization renders `App`. -/
theorem bootstrap_guarded_witness :
    ∃ id, (some "abc" : Option String) = some id ∧ id ≠ "" ∧
      (Except.ok () : Except String Unit) = .ok () :=
  bootstrap_guarded.2.1 (some "abc") (.ok ()) rfl

/-- Claim C8: The callback of the manual-span demo never propagates a
failure out to `startManualSpan`: it completes normally for every
environment, and when one of the three workflow steps raises, the
failure is caught, recorded via `recordError`, and reflected by
`setStatus(ERROR, message)`. -/
theorem manual_demo_never_propagates (env : DemoEnv) (t0 t1 : Nat) :
    (handleManualSpan env t0 t1).outcome = DemoOutcome.normal ∧
    (∀ k, env.failAt = some k → 1 ≤ k → k ≤ 3 →
      (handleManualSpan env t0 t1).errorLog =
        [{ message := env.failMsg, context := "Multi-step workflow failed",
           component := "TracesDemo.jsx" }] ∧
      (handleManualSpan env t0 t1).st.span.status =
        { code := .ERROR, message := some env.failMsg }) := by
  constructor
  · rcases henv : env.failAt with _ | k
    · simp [handleManualSpan, handleManualSpanWork, demoTry, demoCatch, demoAwait,
            closeAndEmit, Span.setAttributes, Span.setStatus, Span.close, mkSpan, henv]
    · by_cases h1 : k = 1
      · subst h1
        simp [handleManualSpan, handleManualSpanWork, demoTry, demoCatch, demoAwait,
              closeAndEmit, Span.setAttributes, Span.setStatus, Span.close, mkSpan,
              henv, Failure.describe]
      · by_cases h2 : k = 2
        · subst h2
          simp [handleManualSpan, handleManualSpanWork, demoTry, demoCatch, demoAwait,
                closeAndEmit, Span.setAttributes, Span.setStatus, Span.close, mkSpan,
                henv, Failure.describe]
        · by_cases h3 : k = 3
          · subst h3
            simp [handleManualSpan, handleManualSpanWork, demoTry, demoCatch, demoAwait,
                  closeAndEmit, Span.setAttributes, Span.setStatus, Span.close, mkSpan,
                  henv, Failure.describe]
          · simp [handleManualSpan, handleManualSpanWork, demoTry, demoCatch, demoAwait,
                  closeAndEmit, Span.setAttributes, Span.setStatus, Span.close, mkSpan,
                  henv, h1, h2, h3]
  · intro k henv hk1 hk3
    interval_cases k
    · simp [handleManualSpan, handleManualSpanWork, demoTry, demoCatch, demoAwait,
            closeAndEmit, Span.setAttributes, Span.setStatus, Span.close, mkSpan,
            henv, Failure.describe]
    · simp [handleManualSpan, handleManualSpanWork, demoTry, demoCatch, demoAwait,
            closeAndEmit, Span.setAttributes, Span.setStatus, Span.close, mkSpan,
            henv, Failure.describe]
    · simp [handleManualSpan, handleManualSpanWork, demoTry, demoCatch, demoAwait,
            closeAndEmit, Span.setAttributes, Span.setStatus, Span.close, mkSpan,
            henv, Failure.describe]

/-- Witness for C8: the second workflow step rejects with `"boom"`;
the callback still completes normally, records the error, and marks
the span `ERROR`. -/
theorem manual_demo_never_propagates_witness :
    (handleManualSpan { failAt := some 2, failMsg := "boom", ts := fun _ => "T" } 0 9).outcome
      = DemoOutcome.normal ∧
    (handleManualSpan { failAt := some 2, failMsg := "boom", ts := fun _ => "T" } 0 9).errorLog
      = [{ message := "boom", context := "Multi-step workflow failed",
           component := "TracesDemo.jsx" }] ∧
    (handleManualSpan { failAt := some 2, failMsg := "boom", ts := fun _ => "T" } 0 9).st.span.status
      = { code := .ERROR, message := some "boom" } :=
  have h := manual_demo_never_propagates
    { failAt := some 2, failMsg := "boom", ts := fun _ => "T" } 0 9
  ⟨h.1, (h.2 2 rfl (by decide) (by decide)).1, (h.2 2 rfl (by decide) (by decide)).2⟩

/-- Claim C9: On every exit path of the manual-span demo callback a status
code is assigned before `span.end()`: the span ends up closed, emitted
exactly once, with status `OK` on the normal path and `ERROR` on the
failure path — never `UNSET`. -/
theorem manual_demo_status_set_before_end (env : DemoEnv) (t0 t1 : Nat) :
    (handleManualSpan env t0 t1).st.span.closed = true ∧
    (handleManualSpan env t0 t1).st.emitted.length = 1 ∧
    (handleManualSpan env t0 t1).st.span.status.code =
      (if demoFails env = true then StatusCode.ERROR else StatusCode.OK) ∧
    (handleManualSpan env t0 t1).st.span.status.code ≠ StatusCode.UNSET := by
  rcases henv : env.failAt with _ | k
  · simp [handleManualSpan, handleManualSpanWork, demoTry, demoCatch, demoAwait,
          closeAndEmit, Span.setAttributes, Span.setStatus, Span.close, mkSpan,
          henv, demoFails]
  · by_cases h1 : k = 1
    · subst h1
      simp [handleManualSpan, handleManualSpanWork, demoTry, demoCatch, demoAwait,
            closeAndEmit, Span.setAttributes, Span.setStatus, Span.close, mkSpan,
            henv, demoFails, Failure.describe]
    · by_cases h2 : k = 2
      · subst h2
        simp [handleManualSpan, handleManualSpanWork, demoTry, demoCatch, demoAwait,
              closeAndEmit, Span.setAttributes, Span.setStatus, Span.close, mkSpan,
              henv, demoFails, Failure.describe]
      · by_cases h3 : k = 3
        · subst h3
          simp [handleManualSpan, handleManualSpanWork, demoTry, demoCatch, demoAwait,
                closeAndEmit, Span.setAttributes, Span.setStatus, Span.close, mkSpan,
                henv, demoFails, Failure.describe]
        · have hdf : demoFails env = false := by
            simp [demoFails, henv]
            omega
          simp [handleManualSpan, handleManualSpanWork, demoTry, demoCatch, demoAwait,
                closeAndEmit, Span.setAttributes, Span.setStatus, Span.close, mkSpan,
                henv, h1, h2, h3, hdf]

end O11y
